/-
Verification of the analytical core of the greenhouse CSV analyzer
(src/app.py, function analyze_and_plot and its configuration).

The embedding models a pandas DataFrame as a list of rows plus
column-presence flags: a sensor column may be absent from the dataset
(flag false) and, independently, a present column may hold NaN in a
given row (Option.none at row level).  Real sensor values are modelled
by real numbers; timestamps by integers (pd.to_datetime values, already
parsed before analyze_and_plot runs).  Chart rendering, PDF export and
Streamlit display calls are out of scope (rendering sink); the data
handed to them — the augmented frame, the statistics table and the
compliance percentages — is what the Output structure collects.
-/
import Mathlib

noncomputable section

namespace CsvAnalyzer

/-- The sensor / derived metric names that appear in IDEAL_RANGES
(src/app.py lines 27-33), in the dict's insertion order. -/
inductive ColName where
  | temperature
  | humidity
  | VPD
  | underground_temperature
  | underground_water_content
deriving DecidableEq, Repr

/-- One CSV row: a timestamp (terminal_date, already parsed to a
datetime, modelled as ℤ) and per-row sensor values; none models NaN. -/
structure Row where
  terminal_date : ℤ
  temperature : Option ℝ
  humidity : Option ℝ
  underground_temperature : Option ℝ
  underground_water_content : Option ℝ

/-- The uploaded DataFrame: which sensor columns exist, plus the rows.
A false flag means the column is absent from the CSV entirely
(indexing it raises KeyError in pandas). -/
structure Frame where
  hasTemperature : Bool
  hasHumidity : Bool
  hasUndergroundTemperature : Bool
  hasUndergroundWaterContent : Bool
  rows : List Row

/-- src/app.py line 105: df[(terminal_date >= start) & (terminal_date <= end)],
inclusive on both bounds, keeping the original row order. -/
def filteredRows (df : Frame) (s e : ℤ) : List Row :=
  df.rows.filter (fun r => decide (s ≤ r.terminal_date ∧ r.terminal_date ≤ e))

/-- src/app.py lines 112-113, per row: line 112 sets
VPD = 0.6108 * exp(17.27*T/(T+237.3)) and line 113 subtracts
VPD * humidity / 100 from it.  NaN in either input propagates (none). -/
def vpdRow : Option ℝ → Option ℝ → Option ℝ
  | some t, some h =>
      some (0.6108 * Real.exp (17.27 * t / (t + 237.3)) -
        0.6108 * Real.exp (17.27 * t / (t + 237.3)) * h / 100)
  | _, _ => none

/-- The subtraction pandas Series.diff performs on one pair of
entries: current minus previous, NaN if either is NaN. -/
def diffOpt : Option ℝ → Option ℝ → Option ℝ
  | some a, some b => some (a - b)
  | _, _ => none

/-- pandas Series.diff (src/app.py line 120) after the first element:
each entry is the current value minus prev, NaN if either is NaN. -/
def diffFrom : Option ℝ → List (Option ℝ) → List (Option ℝ)
  | _, [] => []
  | prev, y :: ys => diffOpt y prev :: diffFrom y ys

/-- pandas Series.diff (src/app.py line 120): the first element is NaN,
element i (i ≥ 1) is value[i] - value[i-1]. -/
def diffList : List (Option ℝ) → List (Option ℝ)
  | [] => []
  | x :: xs => none :: diffFrom x xs

/-- pandas rolling(window=3, min_periods=1).mean() at index i
(src/app.py line 123): the mean of the non-NaN values among the last
up-to-3 entries ending at i; NaN when none of them is non-NaN. -/
def ma3At (l : List (Option ℝ)) (i : ℕ) : Option ℝ :=
  let window := ((l.take (i + 1)).drop (i + 1 - 3)).filterMap id
  if window.length = 0 then none else some (window.sum / (window.length : ℝ))

/-- The whole temperature_ma3 column (src/app.py line 123). -/
def ma3List (l : List (Option ℝ)) : List (Option ℝ) :=
  (List.range l.length).map (ma3At l)

/-- df_filtered after the derivation block (src/app.py lines 111-123):
the original rows plus the added columns.  VPD is always present (it is
assigned unconditionally at lines 112-113); the other derived columns
are present only when their guard at lines 116/119/122 held, which the
Option at column level records. -/
structure AugFrame where
  hasTemperature : Bool
  hasHumidity : Bool
  hasUndergroundTemperature : Bool
  hasUndergroundWaterContent : Bool
  rows : List Row
  VPD : List (Option ℝ)
  temp_diff : Option (List (Option ℝ))
  soil_moisture_change : Option (List (Option ℝ))
  temperature_ma3 : Option (List (Option ℝ))

/-- src/app.py lines 111-123: the derivation block over the filtered
frame.  Adding columns to a DataFrame leaves the existing columns, the
row count and the row order untouched, which the embedding reflects by
keeping rows unchanged. -/
def deriveFrame (f : Frame) : AugFrame where
  hasTemperature := f.hasTemperature
  hasHumidity := f.hasHumidity
  hasUndergroundTemperature := f.hasUndergroundTemperature
  hasUndergroundWaterContent := f.hasUndergroundWaterContent
  rows := f.rows
  VPD := f.rows.map (fun r => vpdRow r.temperature r.humidity)
  temp_diff :=
    if f.hasTemperature && f.hasUndergroundTemperature then
      some (f.rows.map (fun r =>
        match r.temperature, r.underground_temperature with
        | some a, some b => some (a - b)
        | _, _ => none))
    else none
  soil_moisture_change :=
    if f.hasUndergroundWaterContent then
      some (diffList (f.rows.map (fun r => r.underground_water_content)))
    else none
  temperature_ma3 :=
    if f.hasTemperature then
      some (ma3List (f.rows.map (fun r => r.temperature)))
    else none

/-- IDEAL_RANGES (src/app.py lines 27-33). -/
def idealRange : ColName → ℝ × ℝ
  | .temperature => (20, 28)
  | .humidity => (60, 80)
  | .VPD => (0.6, 1.2)
  | .underground_temperature => (18, 25)
  | .underground_water_content => (30, 60)

/-- The keys of IDEAL_RANGES in dict order (src/app.py line 131 iterates
IDEAL_RANGES.keys()). -/
def allCols : List ColName :=
  [.temperature, .humidity, .VPD, .underground_temperature, .underground_water_content]

/-- Whether a metric column is present in df_filtered when line 131
runs.  VPD was added unconditionally at line 112, so it is always in
df_filtered.columns there. -/
def hasCol (g : AugFrame) : ColName → Bool
  | .temperature => g.hasTemperature
  | .humidity => g.hasHumidity
  | .VPD => true
  | .underground_temperature => g.hasUndergroundTemperature
  | .underground_water_content => g.hasUndergroundWaterContent

/-- src/app.py line 131: columns_to_describe. -/
def columnsToDescribe (g : AugFrame) : List ColName :=
  allCols.filter (hasCol g)

/-- The values of a metric column of df_filtered, in row order. -/
def colVals (g : AugFrame) : ColName → List (Option ℝ)
  | .temperature => g.rows.map (fun r => r.temperature)
  | .humidity => g.rows.map (fun r => r.humidity)
  | .VPD => g.VPD
  | .underground_temperature => g.rows.map (fun r => r.underground_temperature)
  | .underground_water_content => g.rows.map (fun r => r.underground_water_content)

/-- The non-NaN entries of a column (what notnull() keeps and what
describe()/mean/max/min/std operate on). -/
def nonNull (col : List (Option ℝ)) : List ℝ :=
  col.filterMap id

open Classical in
/-- The number of values v in the list with low ≤ v ≤ high: the row
count of df_filtered[(col >= low) & (col <= high)] at line 142 (a NaN
compares false in pandas, so only non-null in-range values are kept;
.count() then counts them all). -/
def countInRange (low high : ℝ) : List ℝ → ℕ
  | [] => 0
  | v :: vs => (if low ≤ v ∧ v ≤ high then 1 else 0) + countInRange low high vs

/-- Python round() ties-to-even on an exact real value. -/
def roundHalfEven (x : ℝ) : ℤ :=
  if Int.fract x = 1 / 2 then (if Even ⌊x⌋ then ⌊x⌋ else ⌊x⌋ + 1)
  else round x

/-- Python round(x, 1) (src/app.py line 143) on an exact real value. -/
def round1 (x : ℝ) : ℝ :=
  (roundHalfEven (x * 10) : ℝ) / 10

/-- src/app.py lines 141-143 for one metric: total = notnull count,
in_range as at line 142, and percent = round(in_range/total*100, 1)
if total else 0. -/
def metricPercent (low high : ℝ) (col : List (Option ℝ)) : ℝ :=
  if (nonNull col).length = 0 then 0
  else round1 ((countInRange low high (nonNull col) : ℝ) / ((nonNull col).length : ℝ) * 100)

/-- src/app.py lines 139-144: one compliance percentage per described
column, in columns_to_describe order. -/
def complianceFor (g : AugFrame) : List (ColName × ℝ) :=
  (columnsToDescribe g).map (fun c =>
    (c, metricPercent (idealRange c).1 (idealRange c).2 (colVals g c)))

/-- pandas mean over the non-NaN values: NaN (none) when there are
none. -/
def meanOf (l : List ℝ) : Option ℝ :=
  if l.length = 0 then none else some (l.sum / (l.length : ℝ))

/-- pandas max over the non-NaN values: NaN (none) when there are
none. -/
def maxOf : List ℝ → Option ℝ
  | [] => none
  | v :: vs => some (match maxOf vs with | none => v | some m => max v m)

/-- pandas min over the non-NaN values: NaN (none) when there are
none. -/
def minOf : List ℝ → Option ℝ
  | [] => none
  | v :: vs => some (match minOf vs with | none => v | some m => min v m)

/-- The sample standard deviation (ddof = 1, pandas default used by
describe() at line 132): sqrt of the sum of squared deviations from the
mean divided by n - 1. -/
def sampleStd (l : List ℝ) : ℝ :=
  Real.sqrt (((l.map (fun v => (v - l.sum / (l.length : ℝ)) ^ 2)).sum) / ((l.length : ℝ) - 1))

/-- The population standard deviation (ddof = 0), stated only to
contrast with the sample standard deviation the code uses. -/
def populationStd (l : List ℝ) : ℝ :=
  Real.sqrt (((l.map (fun v => (v - l.sum / (l.length : ℝ)) ^ 2)).sum) / (l.length : ℝ))

/-- pandas std (ddof = 1): NaN when fewer than two observations. -/
def stdOf (l : List ℝ) : Option ℝ :=
  if l.length < 2 then none else some (sampleStd l)

/-- One row block of describe().loc[["mean", "max", "min", "std"]]
(src/app.py line 132); none models NaN. -/
structure StatRow where
  mean : Option ℝ
  max : Option ℝ
  min : Option ℝ
  std : Option ℝ

/-- src/app.py lines 131-132: the statistics table, one StatRow per
described column, over the non-NaN values of that column.  (Line 134
rounds the displayed copy to 2 decimals; that is display formatting in
the rendering sink, the computed table is this one.) -/
def statsFor (g : AugFrame) : List (ColName × StatRow) :=
  (columnsToDescribe g).map (fun c =>
    let vals := nonNull (colVals g c)
    (c, { mean := meanOf vals, max := maxOf vals, min := minOf vals, std := stdOf vals }))

/-- The abnormal outcomes of analyze_and_plot: the empty-range early
return with st.warning at lines 107-109, and the pandas KeyError that
line 112 or 113 raises when the temperature or humidity column is
absent from the dataset. -/
inductive Err where
  | emptyDateRange
  | keyError (c : ColName)
deriving DecidableEq, Repr

/-- The data analyze_and_plot hands to the rendering sink on success:
the augmented frame, the statistics table and the compliance
percentages. -/
structure Output where
  frame : AugFrame
  stats : List (ColName × StatRow)
  compliance : List (ColName × ℝ)

/-- src/app.py lines 103-144, the analytical core of analyze_and_plot:
filter by inclusive date range (line 105), early-return on an empty
result (lines 107-109), derive columns (lines 111-123; the
unconditional VPD assignment at lines 112-113 raises KeyError when
temperature or humidity is absent), then compute the statistics table
(lines 131-132) and the per-metric compliance percentages (lines
139-144). -/
def analyze (df : Frame) (s e : ℤ) : Except Err Output :=
  let rows := filteredRows df s e
  if rows.isEmpty then .error .emptyDateRange
  else if !df.hasTemperature then .error (.keyError .temperature)
  else if !df.hasHumidity then .error (.keyError .humidity)
  else
    let g := deriveFrame { df with rows := rows }
    .ok { frame := g, stats := statsFor g, compliance := complianceFor g }

/-- The statistics table the analysis produces, none when the analysis
signals an error instead. -/
def statsOf (df : Frame) (s e : ℤ) : Option (List (ColName × StatRow)) :=
  (analyze df s e).toOption.map Output.stats

/-- The compliance percentages the analysis produces, none when the
analysis signals an error instead. -/
def complianceOf (df : Frame) (s e : ℤ) : Option (List (ColName × ℝ)) :=
  (analyze df s e).toOption.map Output.compliance

/-- The augmented frame the analysis produces, none when the analysis
signals an error instead. -/
def augOf (df : Frame) (s e : ℤ) : Option AugFrame :=
  (analyze df s e).toOption.map Output.frame

/-- Modelled from the spec: the per-record all-metrics-in-range check
that the spec's composite score is built on (no such computation exists
in src/app.py).  Record i complies when every configured metric present
in the data has a value at i that lies inside its inclusive ideal
range; a missing value makes the record non-compliant. -/
def allOkAt (g : AugFrame) (i : ℕ) : Prop :=
  ∀ c ∈ columnsToDescribe g, ∃ v, (colVals g c)[i]? = some (some v) ∧
    (idealRange c).1 ≤ v ∧ v ≤ (idealRange c).2

open Classical in
/-- Modelled from the spec: the composite score — the fraction of
records for which every configured metric is within its inclusive
ideal range, as a percentage rounded to one decimal place.  Stated only
to compare against the code's actual report; src/app.py computes no
such quantity. -/
def specCompositePercent (g : AugFrame) : ℝ :=
  if g.rows.length = 0 then 0
  else round1
    ((((List.range g.rows.length).filter (fun i => decide (allOkAt g i))).length : ℝ) /
      (g.rows.length : ℝ) * 100)

/-- A minimal dataset with temperature and humidity columns, one row in
range, used to instantiate theorems about successful runs. -/
def wSimple : Frame :=
  { hasTemperature := true, hasHumidity := true,
    hasUndergroundTemperature := false, hasUndergroundWaterContent := false,
    rows := [{ terminal_date := 0, temperature := some 0, humidity := some 50,
               underground_temperature := none, underground_water_content := none }] }

/-- A dataset with a soil-moisture column and two rows, used to
instantiate the first-difference theorem. -/
def wDiff : Frame :=
  { hasTemperature := true, hasHumidity := true,
    hasUndergroundTemperature := false, hasUndergroundWaterContent := true,
    rows := [{ terminal_date := 0, temperature := none, humidity := none,
               underground_temperature := none, underground_water_content := some 30 },
             { terminal_date := 1, temperature := none, humidity := none,
               underground_temperature := none, underground_water_content := some 45 }] }

/-- A dataset whose only row lies after the queried date range. -/
def wLate : Frame :=
  { hasTemperature := true, hasHumidity := true,
    hasUndergroundTemperature := false, hasUndergroundWaterContent := false,
    rows := [{ terminal_date := 10, temperature := none, humidity := none,
               underground_temperature := none, underground_water_content := none }] }

/-- A dataset with a temperature column but no humidity column: the
input on which the unconditional VPD assignment at src/app.py line 113
raises KeyError. -/
def noHumFrame : Frame :=
  { hasTemperature := true, hasHumidity := false,
    hasUndergroundTemperature := false, hasUndergroundWaterContent := false,
    rows := [{ terminal_date := 0, temperature := some 25, humidity := none,
               underground_temperature := none, underground_water_content := none }] }

/-- First row of the permutation example. -/
def wRow1 : Row :=
  { terminal_date := 0, temperature := some 21, humidity := some 65,
    underground_temperature := none, underground_water_content := none }

/-- Second row of the permutation example. -/
def wRow2 : Row :=
  { terminal_date := 1, temperature := some 23, humidity := some 70,
    underground_temperature := none, underground_water_content := none }

/-- A two-row dataset used to instantiate the permutation-invariance
theorem. -/
def wPermFrame : Frame :=
  { hasTemperature := true, hasHumidity := true,
    hasUndergroundTemperature := false, hasUndergroundWaterContent := false,
    rows := [wRow1, wRow2] }

/-- Four records on which the spec's composite score (0.0: every record
violates some ideal range) differs from every percentage the code
actually reports (25.0, 50.0 and 25.0).  Temperatures are 25 °C with
saturated air or 0 °C, so every derived VPD value is exactly
computable. -/
def exFrame : Frame :=
  { hasTemperature := true, hasHumidity := true,
    hasUndergroundTemperature := false, hasUndergroundWaterContent := false,
    rows := [{ terminal_date := 0, temperature := some 25, humidity := some 100,
               underground_temperature := none, underground_water_content := none },
             { terminal_date := 1, temperature := some 0, humidity := some 70,
               underground_temperature := none, underground_water_content := none },
             { terminal_date := 2, temperature := some 0, humidity := some 0,
               underground_temperature := none, underground_water_content := none },
             { terminal_date := 3, temperature := some 0, humidity := some 70,
               underground_temperature := none, underground_water_content := none }] }

end CsvAnalyzer

namespace CsvAnalyzer

lemma diffFrom_length (p : Option ℝ) (l : List (Option ℝ)) :
    (diffFrom p l).length = l.length := by
  induction l generalizing p with
  | nil => rfl
  | cons y ys ih => simp [diffFrom, ih]

lemma diffList_length (l : List (Option ℝ)) : (diffList l).length = l.length := by
  cases l with
  | nil => rfl
  | cons x xs => simp [diffList, diffFrom_length]

lemma diffFrom_get (xs : List (Option ℝ)) :
    ∀ (x : Option ℝ) (i : ℕ) (a b : Option ℝ),
      (x :: xs)[i]? = some b → xs[i]? = some a →
      (diffFrom x xs)[i]? = some (diffOpt a b) := by
  induction xs with
  | nil =>
      intro x i a b _ ha
      simp at ha
  | cons y ys ih =>
      intro x i a b hb ha
      cases i with
      | zero =>
          simp only [List.getElem?_cons_zero, Option.some.injEq] at hb ha
          subst hb; subst ha
          simp [diffFrom]
      | succ i =>
          simp only [List.getElem?_cons_succ] at hb ha
          simpa [diffFrom] using ih y i a b hb ha

lemma diffList_get_succ (l : List (Option ℝ)) (i : ℕ) (a b : Option ℝ)
    (hb : l[i]? = some b) (ha : l[i + 1]? = some a) :
    (diffList l)[i + 1]? = some (diffOpt a b) := by
  cases l with
  | nil => simp at hb
  | cons x xs =>
      have hstep : (diffList (x :: xs))[i + 1]? = (diffFrom x xs)[i]? := by
        simp [diffList]
      rw [hstep]
      exact diffFrom_get xs x i a b hb (by simpa using ha)

lemma maxOf_perm {l l' : List ℝ} (h : l.Perm l') : maxOf l = maxOf l' := by
  induction h with
  | nil => rfl
  | cons x _ ih => simp [maxOf, ih]
  | swap x y l =>
      cases hml : maxOf l with
      | none => simp [maxOf, hml, max_comm]
      | some m => simp [maxOf, hml, max_left_comm]
  | trans _ _ ih1 ih2 => exact ih1.trans ih2

lemma minOf_perm {l l' : List ℝ} (h : l.Perm l') : minOf l = minOf l' := by
  induction h with
  | nil => rfl
  | cons x _ ih => simp [minOf, ih]
  | swap x y l =>
      cases hml : minOf l with
      | none => simp [minOf, hml, min_comm]
      | some m => simp [minOf, hml, min_left_comm]
  | trans _ _ ih1 ih2 => exact ih1.trans ih2

lemma meanOf_perm {l l' : List ℝ} (h : l.Perm l') : meanOf l = meanOf l' := by
  simp [meanOf, h.length_eq, h.sum_eq]

lemma sampleStd_perm {l l' : List ℝ} (h : l.Perm l') : sampleStd l = sampleStd l' := by
  unfold sampleStd
  simp only [h.length_eq, h.sum_eq]
  rw [(h.map _).sum_eq]

lemma stdOf_perm {l l' : List ℝ} (h : l.Perm l') : stdOf l = stdOf l' := by
  unfold stdOf
  simp only [h.length_eq, sampleStd_perm h]

lemma round1_int (n : ℤ) : round1 ((n : ℝ)) = (n : ℝ) := by
  unfold round1 roundHalfEven
  have h10 : ((n : ℝ)) * 10 = ((10 * n : ℤ) : ℝ) := by push_cast; ring
  rw [h10, Int.fract_intCast, if_neg (by norm_num), round_intCast]
  push_cast
  ring

lemma round1_zero : round1 (0 : ℝ) = 0 := by
  have := round1_int 0
  norm_num at this
  simpa using this

lemma round1_twentyfive : round1 (25 : ℝ) = 25 := by
  have := round1_int 25
  push_cast at this
  exact this

lemma round1_fifty : round1 (50 : ℝ) = 50 := by
  have := round1_int 50
  push_cast at this
  exact this

lemma vpd_at_saturation (t : ℝ) : vpdRow (some t) (some 100) = some 0 := by
  simp only [vpdRow, Option.some.injEq]
  ring

lemma vpd_zero_seventy : vpdRow (some 0) (some 70) = some 0.18324 := by
  simp only [vpdRow, Option.some.injEq]
  rw [show (17.27 * (0 : ℝ) / (0 + 237.3)) = 0 by norm_num, Real.exp_zero]
  norm_num

lemma vpd_zero_zero : vpdRow (some 0) (some 0) = some 0.6108 := by
  simp only [vpdRow, Option.some.injEq]
  rw [show (17.27 * (0 : ℝ) / (0 + 237.3)) = 0 by norm_num, Real.exp_zero]
  norm_num

/-- C4: the claim says a missing temperature or humidity column makes
the deriver skip VPD and continue without an error; the code instead
indexes the missing column unconditionally at src/app.py lines 112-113,
so pandas raises KeyError and the analysis produces nothing.  This
theorem evaluates the embedded code at the failing input (a dataset
with a temperature column but no humidity column). -/
theorem vpd_missing_humidity_keyerror :
    analyze noHumFrame 0 0 = Except.error (Err.keyError ColName.humidity) := by
  rfl

/-- C6: the derivation block is a pure augmentation: the rows (and so
every original field value, the length and the order) are unchanged,
and every derived column it adds has exactly one entry per row. -/
theorem derive_is_pure_augmentation (f : Frame) :
    (deriveFrame f).rows = f.rows ∧
    (deriveFrame f).VPD.length = f.rows.length ∧
    (∀ l, (deriveFrame f).temp_diff = some l → l.length = f.rows.length) ∧
    (∀ l, (deriveFrame f).soil_moisture_change = some l → l.length = f.rows.length) ∧
    (∀ l, (deriveFrame f).temperature_ma3 = some l → l.length = f.rows.length) := by
  refine ⟨rfl, by simp [deriveFrame], ?_, ?_, ?_⟩
  · intro l hl
    by_cases h : f.hasTemperature && f.hasUndergroundTemperature
    · simp only [deriveFrame, h, if_true, Option.some.injEq] at hl
      subst hl
      simp
    · simp [deriveFrame, h] at hl
  · intro l hl
    by_cases h : f.hasUndergroundWaterContent
    · simp only [deriveFrame, h, if_true, Option.some.injEq] at hl
      subst hl
      simp [diffList_length]
    · simp [deriveFrame, h] at hl
  · intro l hl
    by_cases h : f.hasTemperature
    · simp only [deriveFrame, h, if_true, Option.some.injEq] at hl
      subst hl
      simp [ma3List]
    · simp [deriveFrame, h] at hl

/-- Witness for C6 at a concrete dataset. -/
theorem derive_is_pure_augmentation_witness :
    (deriveFrame wSimple).rows = wSimple.rows ∧
    (deriveFrame wSimple).VPD.length = wSimple.rows.length ∧
    (∀ l, (deriveFrame wSimple).temp_diff = some l → l.length = wSimple.rows.length) ∧
    (∀ l, (deriveFrame wSimple).soil_moisture_change = some l →
      l.length = wSimple.rows.length) ∧
    (∀ l, (deriveFrame wSimple).temperature_ma3 = some l →
      l.length = wSimple.rows.length) :=
  derive_is_pure_augmentation wSimple

/-- C7: the date filter keeps exactly the records whose timestamp lies
inclusively between start and end, preserving their order, and an empty
filtered result is signalled (the warning and early return at src/app.py
lines 107-109) with no statistics, compliance or derivation output. -/
theorem date_filter_inclusive_and_empty_signal (df : Frame) (s e : ℤ) :
    (∀ r, r ∈ filteredRows df s e ↔
        r ∈ df.rows ∧ s ≤ r.terminal_date ∧ r.terminal_date ≤ e) ∧
    (filteredRows df s e).Sublist df.rows ∧
    ((filteredRows df s e).isEmpty = true →
      analyze df s e = Except.error Err.emptyDateRange) := by
  refine ⟨?_, List.filter_sublist _, ?_⟩
  · intro r
    simp [filteredRows, List.mem_filter]
  · intro h
    simp [analyze, h]

/-- Witness for C7: a dataset whose only record lies after the range,
so the filter is empty and the analysis signals the empty range. -/
theorem date_filter_inclusive_and_empty_signal_witness :
    (filteredRows wLate 0 5).isEmpty = true ∧
    analyze wLate 0 5 = Except.error Err.emptyDateRange :=
  ⟨rfl, (date_filter_inclusive_and_empty_signal wLate 0 5).2.2 rfl⟩

/-- C10: with relative humidity between 0 and 100, the derived VPD is
nonnegative, and at 100 % humidity it is exactly zero. -/
theorem vpd_nonneg_and_zero_at_saturation (t rh : ℝ) (h0 : 0 ≤ rh) (h1 : rh ≤ 100) :
    (∀ v, vpdRow (some t) (some rh) = some v → 0 ≤ v) ∧
    vpdRow (some t) (some 100) = some 0 := by
  refine ⟨?_, vpd_at_saturation t⟩
  intro v hv
  simp only [vpdRow, Option.some.injEq] at hv
  subst hv
  have hespos : 0 < 0.6108 * Real.exp (17.27 * t / (t + 237.3)) := by positivity
  have hrh : rh / 100 ≤ 1 := by
    rw [div_le_one (by norm_num : (0:ℝ) < 100)]
    exact h1
  nlinarith

/-- Witness for C10 at temperature 20 °C and humidity 50 %. -/
theorem vpd_nonneg_and_zero_at_saturation_witness :
    (0 : ℝ) ≤ 50 ∧ (50 : ℝ) ≤ 100 ∧
    ((∀ v, vpdRow (some 20) (some 50) = some v → 0 ≤ v) ∧
      vpdRow (some 20) (some 100) = some 0) :=
  ⟨by norm_num, by norm_num,
    vpd_nonneg_and_zero_at_saturation 20 50 (by norm_num) (by norm_num)⟩

lemma analyze_ok (df : Frame) (s e : ℤ)
    (h1 : df.hasTemperature = true) (h2 : df.hasHumidity = true)
    (h3 : (filteredRows df s e).isEmpty = false) :
    analyze df s e = Except.ok
      { frame := deriveFrame { df with rows := filteredRows df s e },
        stats := statsFor (deriveFrame { df with rows := filteredRows df s e }),
        compliance := complianceFor (deriveFrame { df with rows := filteredRows df s e }) } := by
  simp [analyze, h1, h2, h3]

/-- C1: in the filtered record set, every record with temperature t and
relative humidity rh gets the derived VPD value
es * (1 - rh/100) with es = 0.6108 * exp(17.27 * t / (t + 237.3)),
exactly as assigned at src/app.py lines 112-113. -/
theorem vpd_tetens_formula (df : Frame) (s e : ℤ)
    (h1 : df.hasTemperature = true) (h2 : df.hasHumidity = true)
    (h3 : (filteredRows df s e).isEmpty = false) :
    ∃ out, analyze df s e = Except.ok out ∧
      ∀ (i : ℕ) (r : Row), out.frame.rows[i]? = some r →
        ∀ t rh, r.temperature = some t → r.humidity = some rh →
          out.frame.VPD[i]? =
            some (some (0.6108 * Real.exp (17.27 * t / (t + 237.3)) * (1 - rh / 100))) := by
  refine ⟨_, analyze_ok df s e h1 h2 h3, ?_⟩
  intro i r hr t rh ht hh
  have hr' : (filteredRows df s e)[i]? = some r := hr
  show ((filteredRows df s e).map (fun r => vpdRow r.temperature r.humidity))[i]? = _
  rw [List.getElem?_map, hr']
  simp only [Option.map_some']
  rw [ht, hh]
  simp only [vpdRow, Option.some.injEq]
  ring

/-- Witness for C1: a successful run on a one-row dataset. -/
theorem vpd_tetens_formula_witness :
    wSimple.hasTemperature = true ∧ wSimple.hasHumidity = true ∧
    (filteredRows wSimple 0 0).isEmpty = false ∧
    ∃ out, analyze wSimple 0 0 = Except.ok out ∧
      ∀ (i : ℕ) (r : Row), out.frame.rows[i]? = some r →
        ∀ t rh, r.temperature = some t → r.humidity = some rh →
          out.frame.VPD[i]? =
            some (some (0.6108 * Real.exp (17.27 * t / (t + 237.3)) * (1 - rh / 100))) :=
  ⟨rfl, rfl, rfl, vpd_tetens_formula wSimple 0 0 rfl rfl rfl⟩

/-- C5: the derived soil-moisture difference column is missing (NaN) at
the first filtered record, and at every later index i+1 it equals the
water content at i+1 minus the water content at i. -/
theorem soil_moisture_diff_spec (df : Frame) (s e : ℤ)
    (h1 : df.hasTemperature = true) (h2 : df.hasHumidity = true)
    (h4 : df.hasUndergroundWaterContent = true)
    (h3 : (filteredRows df s e).isEmpty = false) :
    ∃ out l, analyze df s e = Except.ok out ∧
      out.frame.soil_moisture_change = some l ∧
      l.length = out.frame.rows.length ∧
      l[0]? = some none ∧
      (∀ (i : ℕ) (r r' : Row), out.frame.rows[i]? = some r → out.frame.rows[i + 1]? = some r' →
        ∀ a b, r'.underground_water_content = some a →
          r.underground_water_content = some b →
          l[i + 1]? = some (some (a - b))) := by
  refine ⟨_, diffList ((filteredRows df s e).map (fun r => r.underground_water_content)),
    analyze_ok df s e h1 h2 h3, ?_, ?_, ?_, ?_⟩
  · show (deriveFrame { df with rows := filteredRows df s e }).soil_moisture_change = _
    simp [deriveFrame, h4]
  · show (diffList _).length = (filteredRows df s e).length
    simp [diffList_length]
  · obtain ⟨x, xs, hx⟩ : ∃ x xs, filteredRows df s e = x :: xs := by
      cases hfe : filteredRows df s e with
      | nil => rw [hfe] at h3; simp at h3
      | cons x xs => exact ⟨x, xs, rfl⟩
    rw [hx]
    simp [diffList]
  · intro i r r' hr hr' a b ha hb
    have hgr : (filteredRows df s e)[i]? = some r := hr
    have hgr' : (filteredRows df s e)[i + 1]? = some r' := hr'
    exact diffList_get_succ _ i (some a) (some b)
      (by rw [List.getElem?_map, hgr]; simp [hb])
      (by rw [List.getElem?_map, hgr']; simp [ha])

/-- Witness for C5: a successful run on a two-row dataset with a
soil-moisture column. -/
theorem soil_moisture_diff_spec_witness :
    wDiff.hasTemperature = true ∧ wDiff.hasHumidity = true ∧
    wDiff.hasUndergroundWaterContent = true ∧
    (filteredRows wDiff 0 1).isEmpty = false ∧
    ∃ out l, analyze wDiff 0 1 = Except.ok out ∧
      out.frame.soil_moisture_change = some l ∧
      l.length = out.frame.rows.length ∧
      l[0]? = some none ∧
      (∀ (i : ℕ) (r r' : Row), out.frame.rows[i]? = some r → out.frame.rows[i + 1]? = some r' →
        ∀ a b, r'.underground_water_content = some a →
          r.underground_water_content = some b →
          l[i + 1]? = some (some (a - b))) :=
  ⟨rfl, rfl, rfl, rfl, soil_moisture_diff_spec wDiff 0 1 rfl rfl rfl rfl⟩

/-- C3: for every metric present both in the records and in
IDEAL_RANGES, the report carries the compliance percentage
in_range / non_null * 100 rounded to one decimal, with inclusive
bounds, and exactly 0 (no error, no NaN) when there are no non-null
values. -/
theorem compliance_percent_formula (df : Frame) (s e : ℤ)
    (h1 : df.hasTemperature = true) (h2 : df.hasHumidity = true)
    (h3 : (filteredRows df s e).isEmpty = false) :
    ∃ out, analyze df s e = Except.ok out ∧
      ∀ c ∈ columnsToDescribe out.frame,
        (c, if (nonNull (colVals out.frame c)).length = 0 then (0 : ℝ)
            else round1 ((countInRange (idealRange c).1 (idealRange c).2
                (nonNull (colVals out.frame c)) : ℝ) /
              ((nonNull (colVals out.frame c)).length : ℝ) * 100)) ∈ out.compliance := by
  refine ⟨_, analyze_ok df s e h1 h2 h3, ?_⟩
  intro c hc
  exact List.mem_map_of_mem _ hc

/-- Witness for C3: a successful run on a one-row dataset. -/
theorem compliance_percent_formula_witness :
    wSimple.hasTemperature = true ∧ wSimple.hasHumidity = true ∧
    (filteredRows wSimple 0 0).isEmpty = false ∧
    ∃ out, analyze wSimple 0 0 = Except.ok out ∧
      ∀ c ∈ columnsToDescribe out.frame,
        (c, if (nonNull (colVals out.frame c)).length = 0 then (0 : ℝ)
            else round1 ((countInRange (idealRange c).1 (idealRange c).2
                (nonNull (colVals out.frame c)) : ℝ) /
              ((nonNull (colVals out.frame c)).length : ℝ) * 100)) ∈ out.compliance :=
  ⟨rfl, rfl, rfl, compliance_percent_formula wSimple 0 0 rfl rfl rfl⟩

/-- C9: for every metric present both in the records and in
IDEAL_RANGES the statistics table carries the mean, max, min and
standard deviation over the non-missing values, and the standard
deviation is the sample one (N−1 denominator): on the values 0 and 2 it
is sqrt 2, whereas the population standard deviation would be 1. -/
theorem stats_fields_and_sample_std (df : Frame) (s e : ℤ)
    (h1 : df.hasTemperature = true) (h2 : df.hasHumidity = true)
    (h3 : (filteredRows df s e).isEmpty = false) :
    (∃ out, analyze df s e = Except.ok out ∧
      ∀ c ∈ columnsToDescribe out.frame,
        (c, { mean := meanOf (nonNull (colVals out.frame c)),
              max := maxOf (nonNull (colVals out.frame c)),
              min := minOf (nonNull (colVals out.frame c)),
              std := stdOf (nonNull (colVals out.frame c)) : StatRow }) ∈ out.stats) ∧
    stdOf [0, 2] = some (sampleStd [0, 2]) ∧
    sampleStd [0, 2] = Real.sqrt 2 ∧
    populationStd [0, 2] = 1 ∧
    sampleStd [0, 2] ≠ populationStd [0, 2] := by
  have hsam : sampleStd [0, 2] = Real.sqrt 2 := by
    unfold sampleStd
    norm_num
  have hpop : populationStd [0, 2] = 1 := by
    unfold populationStd
    norm_num [Real.sqrt_one]
  refine ⟨⟨_, analyze_ok df s e h1 h2 h3, ?_⟩, by simp [stdOf], hsam, hpop, ?_⟩
  · intro c hc
    exact List.mem_map_of_mem _ hc
  · rw [hsam, hpop]
    intro hcontra
    have h2sq := Real.sq_sqrt (by norm_num : (0 : ℝ) ≤ 2)
    rw [hcontra] at h2sq
    norm_num at h2sq

/-- Witness for C9: a successful run on a one-row dataset. -/
theorem stats_fields_and_sample_std_witness :
    wSimple.hasTemperature = true ∧ wSimple.hasHumidity = true ∧
    (filteredRows wSimple 0 0).isEmpty = false ∧
    ((∃ out, analyze wSimple 0 0 = Except.ok out ∧
      ∀ c ∈ columnsToDescribe out.frame,
        (c, { mean := meanOf (nonNull (colVals out.frame c)),
              max := maxOf (nonNull (colVals out.frame c)),
              min := minOf (nonNull (colVals out.frame c)),
              std := stdOf (nonNull (colVals out.frame c)) : StatRow }) ∈ out.stats) ∧
    stdOf [0, 2] = some (sampleStd [0, 2]) ∧
    sampleStd [0, 2] = Real.sqrt 2 ∧
    populationStd [0, 2] = 1 ∧
    sampleStd [0, 2] ≠ populationStd [0, 2]) :=
  ⟨rfl, rfl, rfl, stats_fields_and_sample_std wSimple 0 0 rfl rfl rfl⟩

/-- C2 (amended): the score report has exactly one compliance
percentage and one statistics row per configured metric present in the
data, and nothing else — in particular no composite all-metrics-in-range
score is computed anywhere in src/app.py. -/
theorem compliance_report_per_metric_only (df : Frame) (s e : ℤ)
    (h1 : df.hasTemperature = true) (h2 : df.hasHumidity = true)
    (h3 : (filteredRows df s e).isEmpty = false) :
    ∃ out, analyze df s e = Except.ok out ∧
      out.compliance.map Prod.fst = columnsToDescribe out.frame ∧
      out.stats.map Prod.fst = columnsToDescribe out.frame := by
  refine ⟨_, analyze_ok df s e h1 h2 h3, ?_, ?_⟩
  · show (complianceFor _).map Prod.fst = _
    unfold complianceFor
    rw [List.map_map]
    exact List.map_id _
  · show (statsFor _).map Prod.fst = _
    unfold statsFor
    rw [List.map_map]
    exact List.map_id _

/-- Witness for the amended C2: a successful run on a one-row
dataset. -/
theorem compliance_report_per_metric_only_witness :
    wSimple.hasTemperature = true ∧ wSimple.hasHumidity = true ∧
    (filteredRows wSimple 0 0).isEmpty = false ∧
    ∃ out, analyze wSimple 0 0 = Except.ok out ∧
      out.compliance.map Prod.fst = columnsToDescribe out.frame ∧
      out.stats.map Prod.fst = columnsToDescribe out.frame :=
  ⟨rfl, rfl, rfl, compliance_report_per_metric_only wSimple 0 0 rfl rfl rfl⟩

lemma statsFor_perm (f g : Frame)
    (h1 : f.hasTemperature = g.hasTemperature)
    (h2 : f.hasHumidity = g.hasHumidity)
    (h3 : f.hasUndergroundTemperature = g.hasUndergroundTemperature)
    (h4 : f.hasUndergroundWaterContent = g.hasUndergroundWaterContent)
    (hr : f.rows.Perm g.rows) :
    statsFor (deriveFrame f) = statsFor (deriveFrame g) := by
  have hcols : columnsToDescribe (deriveFrame f) = columnsToDescribe (deriveFrame g) := by
    have hfun : hasCol (deriveFrame f) = hasCol (deriveFrame g) := by
      funext c
      cases c <;> simp [hasCol, deriveFrame, h1, h2, h3, h4]
    unfold columnsToDescribe
    rw [hfun]
  have hvals : ∀ c, (nonNull (colVals (deriveFrame f) c)).Perm
      (nonNull (colVals (deriveFrame g) c)) := by
    intro c
    cases c <;> exact (hr.map _).filterMap _
  unfold statsFor
  rw [hcols]
  apply List.map_congr_left
  intro c _
  have hp := hvals c
  dsimp only
  rw [meanOf_perm hp, maxOf_perm hp, minOf_perm hp, stdOf_perm hp]

lemma statsOf_eq_of_perm (b1 b2 b3 b4 : Bool) (rows1 rows2 : List Row) (s e : ℤ)
    (h : rows1.Perm rows2) :
    statsOf ⟨b1, b2, b3, b4, rows1⟩ s e = statsOf ⟨b1, b2, b3, b4, rows2⟩ s e := by
  have hfil : (filteredRows ⟨b1, b2, b3, b4, rows1⟩ s e).Perm
      (filteredRows ⟨b1, b2, b3, b4, rows2⟩ s e) := h.filter _
  have hiso : (filteredRows ⟨b1, b2, b3, b4, rows1⟩ s e).isEmpty =
      (filteredRows ⟨b1, b2, b3, b4, rows2⟩ s e).isEmpty := by
    cases hfe : filteredRows ⟨b1, b2, b3, b4, rows2⟩ s e with
    | nil =>
        have h0 : filteredRows ⟨b1, b2, b3, b4, rows1⟩ s e = [] := by
          apply List.perm_nil.mp
          rw [← hfe]
          exact hfil
        rw [h0]
    | cons x xs =>
        have hlen := hfil.length_eq
        rw [hfe] at hlen
        cases hfe2 : filteredRows ⟨b1, b2, b3, b4, rows1⟩ s e with
        | nil => rw [hfe2] at hlen; simp at hlen
        | cons y ys => rfl
  unfold statsOf
  cases hv : (filteredRows ⟨b1, b2, b3, b4, rows2⟩ s e).isEmpty with
  | true => simp [analyze, hv, hiso.trans hv]
  | false =>
      cases b1 <;> cases b2 <;> simp [analyze, hv, hiso.trans hv, Except.toOption]
      exact statsFor_perm
        ⟨true, true, b3, b4, filteredRows ⟨true, true, b3, b4, rows1⟩ s e⟩
        ⟨true, true, b3, b4, filteredRows ⟨true, true, b3, b4, rows2⟩ s e⟩
        rfl rfl rfl rfl hfil

/-- C8: the statistics are identical for a dataset and any reordering
of the same rows: per-metric mean, max, min and standard deviation only
depend on the multiset of values, so the analysis result does not
depend on the pre-sort input order (in particular reordering rows and
re-sorting them by timestamp before processing changes nothing). -/
theorem stats_invariant_under_row_permutation (df : Frame) (rows' : List Row)
    (s e : ℤ) (h : df.rows.Perm rows') :
    statsOf { df with rows := rows' } s e = statsOf df s e :=
  statsOf_eq_of_perm df.hasTemperature df.hasHumidity df.hasUndergroundTemperature
    df.hasUndergroundWaterContent rows' df.rows s e h.symm

/-- Witness for C8: swapping the two rows of a concrete dataset leaves
the statistics unchanged. -/
theorem stats_invariant_under_row_permutation_witness :
    ([wRow1, wRow2].Perm [wRow2, wRow1]) ∧
    statsOf { wPermFrame with rows := [wRow2, wRow1] } 0 5 = statsOf wPermFrame 0 5 :=
  ⟨List.Perm.swap wRow2 wRow1 [],
    stats_invariant_under_row_permutation wPermFrame [wRow2, wRow1] 0 5
      (List.Perm.swap wRow2 wRow1 [])⟩

open Classical in
/-- C2 (counterexample): on the four records of exFrame the spec's
composite score is 0.0 (every record has some metric outside its ideal
range), yet the analysis output contains no such value: its compliance
percentages are 25.0, 50.0 and 25.0, one per configured metric, and
nothing else — the report contains no composite score. -/
theorem no_composite_score_counterexample :
    augOf exFrame 0 3 = some (deriveFrame exFrame) ∧
    specCompositePercent (deriveFrame exFrame) = 0 ∧
    complianceOf exFrame 0 3 =
      some [(ColName.temperature, 25), (ColName.humidity, 50), (ColName.VPD, 25)] ∧
    ∀ p ∈ ([(ColName.temperature, (25 : ℝ)), (ColName.humidity, 50),
        (ColName.VPD, 25)] : List (ColName × ℝ)),
      p.2 ≠ specCompositePercent (deriveFrame exFrame) := by
  have hcols : columnsToDescribe (deriveFrame exFrame) =
      [ColName.temperature, ColName.humidity, ColName.VPD] := rfl
  have hn0 : ¬ allOkAt (deriveFrame exFrame) 0 := by
    intro hall
    obtain ⟨v, hv, _, hhigh⟩ := hall ColName.humidity (by rw [hcols]; simp)
    rw [show (colVals (deriveFrame exFrame) ColName.humidity)[0]? =
        some (some (100 : ℝ)) from rfl] at hv
    have hv' : (100 : ℝ) = v := by simpa using hv
    rw [← hv'] at hhigh
    norm_num [idealRange] at hhigh
  have hnt : ∀ i, (colVals (deriveFrame exFrame) ColName.temperature)[i]? =
      some (some (0 : ℝ)) → ¬ allOkAt (deriveFrame exFrame) i := by
    intro i hti hall
    obtain ⟨v, hv, hlow, _⟩ := hall ColName.temperature (by rw [hcols]; simp)
    rw [hti] at hv
    have hv' : (0 : ℝ) = v := by simpa using hv
    rw [← hv'] at hlow
    norm_num [idealRange] at hlow
  have hn1 : ¬ allOkAt (deriveFrame exFrame) 1 := hnt 1 rfl
  have hn2 : ¬ allOkAt (deriveFrame exFrame) 2 := hnt 2 rfl
  have hn3 : ¬ allOkAt (deriveFrame exFrame) 3 := hnt 3 rfl
  have hspec : specCompositePercent (deriveFrame exFrame) = 0 := by
    unfold specCompositePercent
    rw [show (deriveFrame exFrame).rows.length = 4 from rfl]
    rw [if_neg (by norm_num)]
    have hfe : (List.range 4).filter
        (fun i => decide (allOkAt (deriveFrame exFrame) i)) = [] := by
      rw [show List.range 4 = [0, 1, 2, 3] from rfl]
      simp [List.filter, decide_eq_false hn0, decide_eq_false hn1,
        decide_eq_false hn2, decide_eq_false hn3]
    rw [hfe]
    norm_num [round1_zero]
  have hana : analyze exFrame 0 3 = Except.ok
      { frame := deriveFrame exFrame,
        stats := statsFor (deriveFrame exFrame),
        compliance := complianceFor (deriveFrame exFrame) } := rfl
  have hT25 : metricPercent (idealRange ColName.temperature).1
      (idealRange ColName.temperature).2
      (colVals (deriveFrame exFrame) ColName.temperature) = 25 := by
    rw [show colVals (deriveFrame exFrame) ColName.temperature =
        [some (25 : ℝ), some 0, some 0, some 0] from rfl]
    rw [show idealRange ColName.temperature = (20, 28) from rfl]
    unfold metricPercent
    rw [show nonNull [some (25 : ℝ), some 0, some 0, some 0] =
        [(25 : ℝ), 0, 0, 0] from rfl]
    norm_num [countInRange, round1_twentyfive]
  have hH50 : metricPercent (idealRange ColName.humidity).1
      (idealRange ColName.humidity).2
      (colVals (deriveFrame exFrame) ColName.humidity) = 50 := by
    rw [show colVals (deriveFrame exFrame) ColName.humidity =
        [some (100 : ℝ), some 70, some 0, some 70] from rfl]
    rw [show idealRange ColName.humidity = (60, 80) from rfl]
    unfold metricPercent
    rw [show nonNull [some (100 : ℝ), some 70, some 0, some 70] =
        [(100 : ℝ), 70, 0, 70] from rfl]
    norm_num [countInRange, round1_fifty]
  have hV25 : metricPercent (idealRange ColName.VPD).1 (idealRange ColName.VPD).2
      (colVals (deriveFrame exFrame) ColName.VPD) = 25 := by
    rw [show colVals (deriveFrame exFrame) ColName.VPD =
        [vpdRow (some 25) (some 100), vpdRow (some 0) (some 70),
         vpdRow (some 0) (some 0), vpdRow (some 0) (some 70)] from rfl]
    rw [vpd_at_saturation, vpd_zero_seventy, vpd_zero_zero]
    rw [show idealRange ColName.VPD = (0.6, 1.2) from rfl]
    unfold metricPercent
    rw [show nonNull [some (0 : ℝ), some 0.18324, some 0.6108, some 0.18324] =
        [(0 : ℝ), 0.18324, 0.6108, 0.18324] from rfl]
    norm_num [countInRange, round1_twentyfive]
  have hcomp : complianceFor (deriveFrame exFrame) =
      [(ColName.temperature, 25), (ColName.humidity, 50), (ColName.VPD, 25)] := by
    unfold complianceFor
    rw [hcols]
    simp only [List.map_cons, List.map_nil]
    rw [hT25, hH50, hV25]
  refine ⟨?_, hspec, ?_, ?_⟩
  · rfl
  · unfold complianceOf
    rw [hana]
    simp only [Except.toOption, Option.map_some']
    rw [hcomp]
  · intro p hp
    rw [hspec]
    fin_cases hp <;> norm_num

end CsvAnalyzer
